import Mathlib

/-!
Verification of the branch-output filter (src/src/plugin-main.cpp): a shallow
embedding of the audio bridge buffer (push_audio_to_buffer / audio_input_callback)
and of the output lifecycle state machine (stop_output / start_output /
restart_output / video_tick), with theorems settling the spec claims.

Machine integers (uint32 frame counts, size_t sizes, uint64 timestamps) are
modelled as Nat; 32-bit float samples are modelled as rationals, which is
faithful for the properties proved here (additive accumulation and hard
clipping to [-1, 1]); overflow of these counters is not reachable in the
scenarios the claims quantify over.

The constants MAX_AUDIO_BUFFER_FRAMES and AUDIO_OUTPUT_FRAMES and the layout
of filter_t and audio_buffer_chunk_header_t live in plugin-main.hpp, which is
not part of the sources; their values are therefore kept as parameters
(Params.maxAudioBufferFrames, Params.headerSize, and the outF argument of the
drain callback), and filter_t is reconstructed from its uses in
plugin-main.cpp. Host calls (obs_*) are modelled by an environment record of
oracle results; obs_log calls are modelled as a trace of log events.
-/

namespace BranchOutput

/-- Log levels used by obs_log in the source. -/
inductive LogLevel
  | debug
  | info
  | warning
  | error
deriving DecidableEq, Repr

/-- One tag per distinct obs_log call site in the modelled code. -/
inductive LogTag
  | bufferFull
  | expandConvBuffer
  | waitForFrames
  | filterSourceNotFound
  | serviceCreationFailed
  | outputCreationFailed
  | videoOutputAssocFailed
  | useMasterTrack
  | useCustomSource
  | audioSourceRetrievalFailed
  | useFilterAudio
  | audioDisabled
  | audioOutputOpenFailed
  | videoEncoderCreationFailed
  | audioEncoderCreationFailed
  | startSucceeded
  | startFailed
  | stopSucceeded
  | attemptingReactivate
  | settingsChangeDetected
  | attemptingRestart
deriving DecidableEq, Repr

/-- A single log line: level and call-site tag. -/
structure LogEvent where
  level : LogLevel
  tag : LogTag
deriving DecidableEq, Repr

/-- Values of filter->audio_source_type (AUDIO_SOURCE_TYPE_* in the source). -/
inductive AudioSourceType
  | silence
  | filter
  | capture
  | master
deriving DecidableEq, Repr

/-- Sample payload of one channel: a list of 32-bit float samples, modelled as
rationals. -/
abbrev Samples := List ℚ

/-- One chunk of the audio buffer: the audio_buffer_chunk_header_t header
(frames, timestamp, consumed offset) together with its per-channel payload.
`data.get? ch = some none` models data_idx[ch] == 0 (channel absent); the
list has one entry per channel index below the filter's channel count at push
time. -/
structure Chunk where
  frames : Nat
  timestamp : Nat
  offset : Nat
  data : List (Option Samples)
deriving DecidableEq, Repr

/-- The obs_audio_data argument of push_audio_to_buffer: frame count,
timestamp, and per-channel pointers (none models a null data[ch] pointer). -/
structure AudioDataIn where
  frames : Nat
  timestamp : Nat
  data : List (Option Samples)
deriving DecidableEq, Repr

/-- Compile-time constants defined in plugin-main.hpp (not under src/), kept
as parameters: the buffer capacity ceiling MAX_AUDIO_BUFFER_FRAMES and
sizeof(audio_buffer_chunk_header_t). -/
structure Params where
  maxAudioBufferFrames : Nat
  headerSize : Nat
deriving DecidableEq, Repr

/-- The filter_t state, reconstructed from its uses in plugin-main.cpp.
Handles to host objects (service, stream_output, encoders, view, ...) are
modelled as booleans: true iff the pointer is non-null. The trace field
collects obs_log events, newest first. -/
structure Filter where
  filterActive : Bool
  outputActive : Bool
  audioSourceType : AudioSourceType
  audioSource : Bool
  audioMixIdx : Nat
  audioChannels : Nat
  samplesPerSec : Nat
  audioBuffer : List Chunk
  audioBufferFrames : Nat
  audioSkip : Nat
  convBufSize : Nat
  streamOutput : Bool
  service : Bool
  audioEncoder : Bool
  videoEncoder : Bool
  audioOutput : Bool
  view : Bool
  videoOutput : Bool
  width : Nat
  height : Nat
  connectAttemptingAt : Nat
  storedSettingsRev : Nat
  activeSettingsRev : Nat
  lastAvailableAt : Nat
  trace : List LogEvent
deriving DecidableEq, Repr

/-- Append one obs_log event to the filter's trace. -/
def logE (lv : LogLevel) (tg : LogTag) (f : Filter) : Filter :=
  { f with trace := { level := lv, tag := tg } :: f.trace }

/-- Build the chunk appended by push_audio_to_buffer: header with frames and
timestamp, consumed offset 0, and the payload of the channels below the
filter's channel count (lines 52-71 of plugin-main.cpp). -/
def mkChunk (audioChannels : Nat) (a : AudioDataIn) : Chunk :=
  { frames := a.frames
    timestamp := a.timestamp
    offset := 0
    data := (a.data.take audioChannels) ++
      List.replicate (audioChannels - a.data.length) none }

/-- Number of present channels of the pushed data (header.channels). -/
def presentChannels (audioChannels : Nat) (a : AudioDataIn) : Nat :=
  ((a.data.take audioChannels).filter Option.isSome).length

/-- Model of push_audio_to_buffer (plugin-main.cpp lines 31-88): early return
when the output is inactive, the source type is silence, or no frames are
pushed; otherwise, under the buffer mutex: reset the whole buffer if the new
frames would exceed the capacity ceiling, append the chunk, grow the scratch
conversion buffer if needed, and add the frames to the buffered-frame count. -/
def push_audio_to_buffer (p : Params) (f : Filter) (a : AudioDataIn) : Filter :=
  if f.outputActive = false ∨ f.audioSourceType = .silence ∨ a.frames = 0 then
    f
  else
    let f :=
      if f.audioBufferFrames + a.frames > p.maxAudioBufferFrames then
        logE .warning .bufferFull { f with audioBuffer := [], audioBufferFrames := 0 }
      else f
    let dataSize := p.headerSize + presentChannels f.audioChannels a * a.frames * 4
    let f :=
      if dataSize > f.convBufSize then
        logE .info .expandConvBuffer { f with convBufSize := dataSize }
      else f
    { f with
      audioBuffer := f.audioBuffer ++ [mkChunk f.audioChannels a]
      audioBufferFrames := f.audioBufferFrames + a.frames }

/-- Destination mix buses of the drain callback: per mix, per channel, one
sample list of the output period's length. -/
abbrev Mixes := List (List Samples)

/-- Hard clip one accumulated sample to [-1, 1] (lines 197-201). -/
def clip (x : ℚ) : ℚ :=
  if x > 1 then 1 else if x < -1 then -1 else x

/-- Accumulate n samples of src (starting at srcOff) additively into dst
(starting at dstOff), clipping each accumulated sample (lines 195-203). -/
def accumSamples (dst src : Samples) (dstOff srcOff n : Nat) : Samples :=
  match n with
  | 0 => dst
  | n + 1 =>
    let dst := dst.set dstOff (clip (dst.getD dstOff 0 + src.getD srcOff 0))
    accumSamples dst src (dstOff + 1) (srcOff + 1) n

/-- One chunk's accumulation pass over all destination buses (lines 184-205):
for every mix bus selected by the mixers bitmask and every channel below the
filter's channel count that is present in the chunk, additively accumulate
`take` samples starting at the chunk's consumed offset into the destination
at dstOff, clipping each sample. -/
def accumChunk (mixers audioChannels : Nat) (c : Chunk) (take dstOff : Nat)
    (mixes : Mixes) : Mixes :=
  mixes.mapIdx fun mixIdx chans =>
    if mixers.testBit mixIdx then
      chans.mapIdx fun ch dst =>
        if ch < audioChannels then
          match c.data.getD ch none with
          | some src => accumSamples dst src dstOff c.offset take
          | none => dst
        else dst
    else chans

/-- Result of the drain loop: remaining buffer, remaining buffered-frame
count, updated destination buses, and total frames accumulated. -/
structure DrainState where
  buffer : List Chunk
  bufferedFrames : Nat
  mixes : Mixes
  taken : Nat
deriving DecidableEq, Repr

/-- Model of the drain loop of audio_input_callback (lines 171-220): while
frames are still wanted and the buffered-frame count is non-zero, peek the
front chunk, take min(remaining frames of the chunk, wanted frames),
accumulate them into the destinations at offset outF - wanted, then either
pop the fully consumed chunk or patch its consumed offset in place, and
decrement the buffered-frame count by the frames taken. -/
def drainLoop (mixers audioChannels outF : Nat) :
    List Chunk → Nat → Nat → Mixes → DrainState
  | [], bufFrames, _, mixes =>
    { buffer := [], bufferedFrames := bufFrames, mixes := mixes, taken := 0 }
  | c :: rest, bufFrames, maxFrames, mixes =>
    if maxFrames = 0 ∨ bufFrames = 0 then
      { buffer := c :: rest, bufferedFrames := bufFrames, mixes := mixes, taken := 0 }
    else
      let chunkFrames := c.frames - c.offset
      let take := min chunkFrames maxFrames
      let mixes := accumChunk mixers audioChannels c take (outF - maxFrames) mixes
      if take = chunkFrames then
        let r := drainLoop mixers audioChannels outF rest (bufFrames - take)
          (maxFrames - take) mixes
        { r with taken := take + r.taken }
      else
        { buffer := { c with offset := c.offset + take } :: rest
          bufferedFrames := bufFrames - take
          mixes := mixes
          taken := take }

/-- Result of one audio_input_callback invocation: the updated filter, the
updated destination buses, the reported output timestamp, the boolean return
value, and the total frames accumulated into the destinations. -/
structure AudioCbResult where
  filter : Filter
  mixes : Mixes
  outTs : Nat
  ret : Bool
  written : Nat
deriving DecidableEq, Repr

/-- Model of audio_input_callback (lines 137-226). audioInfoOk models the
result of obs_get_audio_info. Silence path: inactive output, silence source,
or no audio info - report the input timestamp, touch nothing. Starvation
path: fewer buffered frames than one output period - log on the first starved
cycle of a streak, increment audio_skip, write nothing. Otherwise reset
audio_skip and run the drain loop for one output period of outF frames. -/
def audio_input_callback (outF mixers : Nat) (audioInfoOk : Bool)
    (startTs : Nat) (f : Filter) (mixes : Mixes) : AudioCbResult :=
  if f.outputActive = false ∨ f.audioSourceType = .silence ∨ audioInfoOk = false then
    { filter := f, mixes := mixes, outTs := startTs, ret := true, written := 0 }
  else if f.audioBufferFrames < outF then
    let f := if f.audioSkip = 0 then logE .debug .waitForFrames f else f
    { filter := { f with audioSkip := f.audioSkip + 1 }
      mixes := mixes, outTs := startTs, ret := true, written := 0 }
  else
    let f := { f with audioSkip := 0 }
    let r := drainLoop mixers f.audioChannels outF f.audioBuffer
      f.audioBufferFrames outF mixes
    { filter := { f with audioBuffer := r.buffer, audioBufferFrames := r.bufferedFrames }
      mixes := r.mixes, outTs := startTs, ret := true, written := r.taken }

/-- MAX_AUDIO_MIXES of the host audio interface (obs audio-io.h). -/
def MAX_AUDIO_MIXES : Nat := 6

/-- Settings value of "audio_source" as the source inspects it (lines
394-439): empty string, the literal no_audio, a master_track_N name with the
parsed track number, or a source uuid together with whether
obs_get_source_by_uuid finds the source. -/
inductive AudioSourceSetting
  | empty
  | noAudio
  | masterTrack (trackNo : Nat)
  | sourceUuid (found : Bool)
deriving DecidableEq, Repr

/-- Environment of one lifecycle call: results of the host (obs_*) calls the
code makes, the relevant settings values, the current monotonic clock, and
the timeout constants from plugin-main.hpp. -/
structure Env where
  obsInitialized : Bool
  sourceEnabled : Bool
  parentExists : Bool
  videoInfoOk : Bool
  fpsNum : Nat
  fpsDen : Nat
  parentWidth : Nat
  parentHeight : Nat
  serviceCreateOk : Bool
  outputCreateOk : Bool
  viewAddOk : Bool
  audioOutputOpenOk : Bool
  videoEncoderCreateOk : Bool
  audioEncoderCreateOk : Bool
  outputStartOk : Bool
  weakSourceOk : Bool
  now : Nat
  audioChannelsEnv : Nat
  sampleRate : Nat
  serverSet : Bool
  customAudioSource : Bool
  audioSourceSetting : AudioSourceSetting
  streamActive : Bool
  sceneFound : Bool
  connectTimeoutNs : Nat
  availIntervalNs : Nat
deriving DecidableEq, Repr

/-- Net state effect of stop_output (lines 228-294): clear the connect
timestamp, release (null out) every held handle - stream output, service,
both encoders, the weak audio source when the source type is capture, the
audio output and the view - reset the source type to silence, clear the audio
buffer, its frame count and the starvation counter, and when the output was
active mark it inactive and log success. The conditional release branches of
the source change no state beyond this when their handle is already null. -/
def stop_output (f : Filter) : Filter :=
  { f with
    connectAttemptingAt := 0
    streamOutput := false
    service := false
    audioEncoder := false
    videoEncoder := false
    audioSource := if f.audioSourceType = .capture then false else f.audioSource
    audioSourceType := .silence
    audioOutput := false
    view := false
    audioBufferFrames := 0
    audioSkip := 0
    audioBuffer := []
    outputActive := false
    trace := if f.outputActive then
        { level := .info, tag := .stopSucceeded } :: f.trace
      else f.trace }

/-- Audio source selection of start_output (lines 392-450): returns the
updated filter and whether the early-return path (weak source retrieval
failure) was taken. -/
def selectAudio (env : Env) (f : Filter) : Filter × Bool :=
  if env.customAudioSource then
    match env.audioSourceSetting with
    | .empty => (f, false)
    | .noAudio => (f, false)
    | .masterTrack trackNo =>
      if trackNo ≤ MAX_AUDIO_MIXES then
        (logE .info .useMasterTrack
          { f with audioMixIdx := trackNo - 1, audioSourceType := .master }, false)
      else (f, false)
    | .sourceUuid found =>
      if found then
        let f := logE .info .useCustomSource f
        let f := { f with audioSource := env.weakSourceOk, audioSourceType := .capture }
        if env.weakSourceOk = false then
          (logE .error .audioSourceRetrievalFailed f, true)
        else (f, false)
      else (f, false)
  else
    (logE .info .useFilterAudio { f with audioSourceType := .filter }, false)

/-- Tail of start_output from the encoder setup on (lines 467-505): create
the video encoder, create the audio encoder, then start the stream output,
marking the output active and the parent showing on success; each failure
logs an error and aborts. -/
def startEncoders (env : Env) (f : Filter) : Filter :=
  if env.videoEncoderCreateOk = false then logE .error .videoEncoderCreationFailed f
  else
    let f := { f with videoEncoder := true }
    if env.audioEncoderCreateOk = false then logE .error .audioEncoderCreationFailed f
    else
      let f := { f with audioEncoder := true }
      if env.outputStartOk then
        logE .info .startSucceeded { f with outputActive := true }
      else logE .error .startFailed f

/-- Tail of start_output from the audio output open on (lines 452-465):
open the audio output, logging an error and aborting on failure, then set up
the encoders. -/
def startAudioOutput (env : Env) (f : Filter) : Filter :=
  if env.audioOutputOpenOk = false then logE .error .audioOutputOpenFailed f
  else startEncoders env { f with audioOutput := true }

/-- Tail of start_output from the audio source selection on (lines 383-450):
reset the audio fields, select the audio source (aborting on the capture
early return), log when audio stays disabled, then continue with the audio
output. -/
def startAudio (env : Env) (f : Filter) : Filter :=
  let f :=
    { f with
      audioSourceType := .silence
      audioSource := false
      audioMixIdx := 0
      audioChannels := env.audioChannelsEnv
      samplesPerSec := env.sampleRate
      audioBufferFrames := 0
      audioSkip := 0 }
  let sa := selectAudio env f
  if sa.2 then sa.1
  else
    let f := sa.1
    let f := if f.audioSourceType = .silence then logE .info .audioDisabled f else f
    startAudioOutput env f

/-- Tail of start_output from the view creation on (lines 372-381): create
the view and associate the video output, logging an error and aborting when
the association fails. -/
def startView (env : Env) (f : Filter) : Filter :=
  let f := { f with view := true }
  if env.viewAddOk = false then logE .error .videoOutputAssocFailed f
  else startAudio env { f with videoOutput := true }

/-- Tail of start_output from the stream output creation on (lines 362-370):
create the stream output, logging an error and aborting on failure, then
record the connect attempt time and continue with the view. -/
def startStreamOutput (env : Env) (f : Filter) : Filter :=
  if env.outputCreateOk = false then logE .error .outputCreationFailed f
  else startView env { f with streamOutput := true, connectAttemptingAt := env.now }

/-- Tail of start_output from the service creation on (lines 342-347):
create the rtmp_custom service, logging an error and aborting on failure. -/
def startService (env : Env) (f : Filter) : Filter :=
  if env.serviceCreateOk = false then logE .error .serviceCreationFailed f
  else startStreamOutput env { f with service := true }

/-- Model of start_output (lines 299-505): force a stop, run the validation
checks (obs initialized, source enabled, parent present, video info, non-zero
even-rounded dimensions and frame rate), snapshot the settings revision into
active_settings_rev, then acquire service, stream output, view/video output,
audio source, audio output and both encoders in order, aborting with an
error log at the first failure, and finally start the stream output, marking
the output active on success. -/
def start_output (env : Env) (s : Filter) : Filter :=
  let f := stop_output s
  if env.obsInitialized = false ∨ env.sourceEnabled = false then f
  else if env.parentExists = false then logE .error .filterSourceNotFound f
  else if env.videoInfoOk = false then f
  else
    let w := env.parentWidth + env.parentWidth % 2
    let h := env.parentHeight + env.parentHeight % 2
    let f := { f with width := w, height := h }
    if w = 0 ∨ h = 0 ∨ env.fpsDen = 0 ∨ env.fpsNum = 0 then f
    else startService env { f with activeSettingsRev := f.storedSettingsRev }

/-- Model of restart_output (lines 584-596): stop when the output is active,
then start again when the "server" setting is non-empty. -/
def restart_output (env : Env) (f : Filter) : Filter :=
  let f := if f.outputActive then stop_output f else f
  if env.serverSet then start_output env f else f

/-- Model of connect_attempting_timed_out (lines 598-602). -/
def connect_attempting_timed_out (env : Env) (f : Filter) : Bool :=
  f.connectAttemptingAt ≠ 0 &&
    env.now - f.connectAttemptingAt > env.connectTimeoutNs

/-- Model of source_available (lines 604-628): within the polling interval
answer true from the cache; otherwise refresh the poll timestamp and answer
the scene-graph query result. -/
def source_available (env : Env) (f : Filter) : Filter × Bool :=
  if env.now - f.lastAvailableAt < env.availIntervalNs then (f, true)
  else ({ f with lastAvailableAt := env.now }, env.sceneFound)

/-- Model of video_tick (lines 631-709): the per-tick lifecycle evaluation,
gated by the filter-active flag, branching on output activity, source
enablement, the connect-attempt timeout, stream activity, a settings revision
gap, and the upstream geometry and availability checks. -/
def video_tick (env : Env) (f : Filter) : Filter :=
  if f.filterActive = false then f
  else if f.outputActive then
    if env.sourceEnabled then
      if connect_attempting_timed_out env f then
        if env.streamActive = false then
          start_output env (logE .info .attemptingReactivate f)
        else if f.activeSettingsRev < f.storedSettingsRev then
          restart_output env (logE .info .settingsChangeDetected f)
        else if env.streamActive then
          let w := env.parentWidth + env.parentWidth % 2
          let h := env.parentHeight + env.parentHeight % 2
          if w = 0 ∨ h = 0 then stop_output f
          else
            let fa := source_available env f
            if fa.2 = false then stop_output fa.1
            else if f.width ≠ w ∨ f.height ≠ h then
              start_output env (logE .info .attemptingRestart fa.1)
            else fa.1
        else f
      else f
    else if env.streamActive then stop_output f else f
  else if env.sourceEnabled then restart_output env f
  else f

/-- Frames of a chunk not yet consumed (frames - consumed offset). -/
def Chunk.avail (c : Chunk) : Nat := c.frames - c.offset

/-- Total unconsumed frames held by a chunk list. -/
def sumAvail (l : List Chunk) : Nat := (l.map Chunk.avail).sum

/-- Every chunk in the list still has unconsumed frames - the store invariant
stated by the spec (a fully consumed chunk is evicted immediately). -/
def liveChunks (l : List Chunk) : Prop := ∀ c ∈ l, c.offset < c.frames

/-- The audio buffer accounting invariant of the filter: all chunks live and
audio_buffer_frames equal to the total unconsumed frames. -/
def BufInv (f : Filter) : Prop :=
  liveChunks f.audioBuffer ∧ f.audioBufferFrames = sumAvail f.audioBuffer

/-- One operation on the audio bridge buffer: a producer push or one pull
consumer callback (with its mixer bitmask and input timestamp). -/
inductive AudioOp
  | push (a : AudioDataIn)
  | drain (mixers : Nat) (startTs : Nat)
deriving DecidableEq, Repr

/-- Total frames offered by the pushes of an operation sequence. -/
def pushedFrames : List AudioOp → Nat
  | [] => 0
  | .push a :: r => a.frames + pushedFrames r
  | .drain _ _ :: r => pushedFrames r

/-- Run a sequence of pushes and drains, accumulating the total number of
frames the drain callback accumulated into destination buses. Destination
contents do not feed back into the filter state, so the drains run on empty
destination lists. -/
def runOps (p : Params) (outF : Nat) : Filter → Nat → List AudioOp → Filter × Nat
  | f, d, [] => (f, d)
  | f, d, .push a :: r => runOps p outF (push_audio_to_buffer p f a) d r
  | f, d, .drain m ts :: r =>
    let q := audio_input_callback outF m true ts f []
    runOps p outF q.filter (d + q.written) r

/-- Number of buffer-overflow warning events in a filter's trace; it grows by
one exactly when a push takes the overflow-reset branch. -/
def overflowCount (f : Filter) : Nat :=
  (f.trace.filter fun e => e.tag = LogTag.bufferFull).length

/-- The filter state called Idle by the spec: no handle held, output
inactive, silence source, no connect attempt pending, empty audio buffer. -/
def IsIdle (f : Filter) : Prop :=
  f.streamOutput = false ∧ f.service = false ∧ f.audioEncoder = false ∧
  f.videoEncoder = false ∧ f.audioSource = false ∧ f.audioOutput = false ∧
  f.view = false ∧ f.outputActive = false ∧ f.audioSourceType = .silence ∧
  f.connectAttemptingAt = 0 ∧ f.audioBuffer = [] ∧ f.audioBufferFrames = 0 ∧
  f.audioSkip = 0

/-- Every resource stop_output releases is released: the handles the source
nulls out unconditionally, plus the cleared bookkeeping fields. -/
def Released (f : Filter) : Prop :=
  f.streamOutput = false ∧ f.service = false ∧ f.audioEncoder = false ∧
  f.videoEncoder = false ∧ f.audioOutput = false ∧ f.view = false ∧
  f.outputActive = false ∧ f.audioSourceType = .silence ∧
  f.connectAttemptingAt = 0 ∧ f.audioBuffer = [] ∧ f.audioBufferFrames = 0 ∧
  f.audioSkip = 0

/-- A baseline filter value used by the concrete scenarios: active output,
filter-tap audio source, one audio channel, empty buffer, empty trace. -/
def exFilter : Filter :=
  { filterActive := true
    outputActive := true
    audioSourceType := .filter
    audioSource := false
    audioMixIdx := 0
    audioChannels := 1
    samplesPerSec := 48000
    audioBuffer := []
    audioBufferFrames := 0
    audioSkip := 0
    convBufSize := 0
    streamOutput := true
    service := true
    audioEncoder := true
    videoEncoder := true
    audioOutput := true
    view := true
    videoOutput := true
    width := 1920
    height := 1080
    connectAttemptingAt := 1
    storedSettingsRev := 5
    activeSettingsRev := 3
    lastAvailableAt := 0
    trace := [] }

/-- Parameters used by the concrete scenarios: a small capacity ceiling and
header size (the claims under test do not depend on their actual values). -/
def exParams : Params := { maxAudioBufferFrames := 5, headerSize := 32 }

/-- An idle filter used as witness input. -/
def idleFilter : Filter :=
  { exFilter with
    outputActive := false
    audioSourceType := .silence
    streamOutput := false
    service := false
    audioEncoder := false
    videoEncoder := false
    audioOutput := false
    view := false
    connectAttemptingAt := 0 }

/-- Environment used by the concrete lifecycle scenarios: all validations
pass, all acquisitions succeed, source enabled, stream active, timeout
elapsed. -/
def exEnv : Env :=
  { obsInitialized := true
    sourceEnabled := true
    parentExists := true
    videoInfoOk := true
    fpsNum := 30
    fpsDen := 1
    parentWidth := 1920
    parentHeight := 1080
    serviceCreateOk := true
    outputCreateOk := true
    viewAddOk := true
    audioOutputOpenOk := true
    videoEncoderCreateOk := true
    audioEncoderCreateOk := true
    outputStartOk := true
    weakSourceOk := true
    now := 1000000000000
    audioChannelsEnv := 2
    sampleRate := 48000
    serverSet := true
    customAudioSource := false
    audioSourceSetting := .empty
    streamActive := true
    sceneFound := true
    connectTimeoutNs := 15000000000
    availIntervalNs := 1000000000 }

/-- A push of n frames on one channel whose samples are k/1000 for k below n,
starting at sample number start. -/
def rampPush (start n : Nat) : AudioDataIn :=
  { frames := n
    timestamp := start
    data := [some ((List.range n).map fun k => ((start + k : Nat) : ℚ) / 1000)] }

/-- Zero-filled destination buses: one mix bus, one channel, n samples. -/
def zeroMix (n : Nat) : Mixes := [[List.replicate n (0 : ℚ)]]

/-- The 100-sample ramp of the partial-chunk resumption scenario. -/
def ramp100 : Samples := (List.range 100).map fun k => ((k : Nat) : ℚ) / 1000

/-- Capacity parameters large enough for the 100-frame scenario. -/
def bigParams : Params := { maxAudioBufferFrames := 1000, headerSize := 32 }

/-- Filter state of the resumption scenario after pushing one 100-frame
chunk. -/
def c5State0 : Filter := push_audio_to_buffer bigParams exFilter (rampPush 0 100)

/-- First drain of the resumption scenario: 30 frames. -/
def c5Drain1 : AudioCbResult := audio_input_callback 30 1 true 0 c5State0 (zeroMix 30)

/-- Second drain of the resumption scenario: 30 frames. -/
def c5Drain2 : AudioCbResult := audio_input_callback 30 1 true 0 c5Drain1.filter (zeroMix 30)

/-- Third drain of the resumption scenario: 40 frames. -/
def c5Drain3 : AudioCbResult := audio_input_callback 40 1 true 0 c5Drain2.filter (zeroMix 40)

/-- Channel 0 of mix bus 0 of a destination list. -/
def mixChan0 (m : Mixes) : Samples := (m.getD 0 []).getD 0 []

/-- Clipping scenario: push one frame of value 0.8 and drain it, twice, into
the same destination sample. -/
def c6Push : AudioDataIn := { frames := 1, timestamp := 0, data := [some [(4 : ℚ) / 5]] }

/-- Clipping scenario after the first push. -/
def c6State0 : Filter := push_audio_to_buffer bigParams exFilter c6Push

/-- Clipping scenario: first drain into a zeroed destination. -/
def c6Drain1 : AudioCbResult := audio_input_callback 1 1 true 0 c6State0 (zeroMix 1)

/-- Clipping scenario after the second push. -/
def c6State1 : Filter := push_audio_to_buffer bigParams c6Drain1.filter c6Push

/-- Clipping scenario: second drain accumulating on top of the first drain's
destination contents at the same bus, channel and offset. -/
def c6Drain2 : AudioCbResult := audio_input_callback 1 1 true 0 c6State1 c6Drain1.mixes

/-- Overflow scenario: a first push of 4 frames (within the ceiling of 5). -/
def c1Before : Filter := push_audio_to_buffer exParams exFilter (rampPush 0 4)

/-- Overflow scenario: the push of 3 more frames that triggers the reset. -/
def c1After : Filter := push_audio_to_buffer exParams c1Before (rampPush 4 3)

/-- Bounded-buffer scenario: a single push of 6 frames against a ceiling of
5. -/
def c9After : Filter := push_audio_to_buffer exParams exFilter (rampPush 0 6)

/-- Environment of the resource-failure scenario: stream output creation
fails, everything else succeeds. -/
def c2FailEnv : Env := { exEnv with outputCreateOk := false }

/-- Conservation scenario: push 3 frames, then two drain callbacks of 2
frames each (the second one starves). -/
def c3Ops : List AudioOp := [.push (rampPush 0 3), .drain 1 0, .drain 1 0]

/-- C10: when the output is inactive, the audio source is silence, or the
pushed frame count is zero, push_audio_to_buffer returns without modifying
the buffer, the buffered frame count, the scratch buffer or any other filter
state. -/
theorem push_noop_when_inactive (p : Params) (f : Filter) (a : AudioDataIn)
    (h : f.outputActive = false ∨ f.audioSourceType = .silence ∨ a.frames = 0) :
    push_audio_to_buffer p f a = f := by
  simp only [push_audio_to_buffer, if_pos h]

/-- Witness for push_noop_when_inactive: an idle filter, a non-empty push. -/
theorem push_noop_when_inactive_witness :
    push_audio_to_buffer exParams idleFilter (rampPush 0 3) = idleFilter :=
  push_noop_when_inactive exParams idleFilter (rampPush 0 3) (Or.inl rfl)

/-- C8: invoking stop_output from the Idle state changes nothing (in
particular it logs no error), stop_output is idempotent from any state, and
from any state it releases every currently held resource. -/
theorem stop_output_idempotent (f g h : Filter) (hg : IsIdle g) :
    stop_output g = g ∧
    stop_output (stop_output f) = stop_output f ∧
    Released (stop_output h) := by
  refine ⟨?_, ?_, ?_⟩
  · obtain ⟨h1, h2, h3, h4, h5, h6, h7, h8, h9, h10, h11, h12, h13⟩ := hg
    cases g
    simp_all [stop_output]
  · simp [stop_output]
  · exact ⟨rfl, rfl, rfl, rfl, rfl, rfl, rfl, rfl, rfl, rfl, rfl, rfl⟩

/-- Witness for stop_output_idempotent at concrete states. -/
theorem stop_output_idempotent_witness :
    stop_output idleFilter = idleFilter ∧
    stop_output (stop_output exFilter) = stop_output exFilter ∧
    Released (stop_output exFilter) :=
  stop_output_idempotent exFilter idleFilter exFilter
    ⟨rfl, rfl, rfl, rfl, rfl, rfl, rfl, rfl, rfl, rfl, rfl, rfl, rfl⟩

/-- C1 refutation: a push that triggers the overflow reset does not leave
buffered_frames == 0; with a ceiling of 5, 4 frames buffered and 3 frames
pushed, the triggering push ends with buffered_frames == 3. -/
theorem overflow_reset_counterexample :
    c1Before.audioBufferFrames + (rampPush 4 3).frames > exParams.maxAudioBufferFrames ∧
    c1Before.outputActive = true ∧ c1Before.audioSourceType ≠ .silence ∧
    c1After.audioBufferFrames = 3 ∧ ¬c1After.audioBufferFrames = 0 := by
  decide

/-- C1 amended: when a push would exceed the capacity ceiling, the entire
store is dropped and reset to empty before the append, so immediately after
the triggering push the triggering chunk is the sole content of the buffer
and buffered_frames equals that chunk's frame count (not zero). -/
theorem overflow_reset_sole_content (p : Params) (f : Filter) (a : AudioDataIn)
    (hact : f.outputActive = true) (hsrc : f.audioSourceType ≠ .silence)
    (hfr : a.frames ≠ 0)
    (hover : f.audioBufferFrames + a.frames > p.maxAudioBufferFrames) :
    (push_audio_to_buffer p f a).audioBuffer = [mkChunk f.audioChannels a] ∧
    (push_audio_to_buffer p f a).audioBufferFrames = a.frames := by
  have hcond : ¬(f.outputActive = false ∨ f.audioSourceType = .silence ∨ a.frames = 0) := by
    simp [hact, hsrc, hfr]
  simp only [push_audio_to_buffer, if_neg hcond, if_pos hover]
  split <;> simp_all [logE]

/-- Witness for overflow_reset_sole_content at the concrete overflow
scenario. -/
theorem overflow_reset_sole_content_witness :
    c1After.audioBuffer = [mkChunk c1Before.audioChannels (rampPush 4 3)] ∧
    c1After.audioBufferFrames = (rampPush 4 3).frames :=
  overflow_reset_sole_content exParams c1Before (rampPush 4 3)
    (by decide) (by decide) (by decide) (by decide)

/-- C9 refutation: a single push larger than the capacity ceiling leaves the
buffered frame count above the ceiling even though the reset fired: with
ceiling 5, pushing 6 frames into an empty buffer ends with buffered_frames
== 6. -/
theorem bounded_buffer_counterexample :
    exFilter.audioBufferFrames ≤ exParams.maxAudioBufferFrames ∧
    c9After.audioBufferFrames = 6 ∧
    ¬c9After.audioBufferFrames ≤ exParams.maxAudioBufferFrames := by
  decide

/-- C9 amended: after every push whose own frame count is at most the
capacity ceiling, the buffered frame count stays at most the ceiling,
provided it was within the ceiling before. -/
theorem bounded_buffer_after_push (p : Params) (f : Filter) (a : AudioDataIn)
    (hf : f.audioBufferFrames ≤ p.maxAudioBufferFrames)
    (ha : a.frames ≤ p.maxAudioBufferFrames) :
    (push_audio_to_buffer p f a).audioBufferFrames ≤ p.maxAudioBufferFrames := by
  by_cases h0 : f.outputActive = false ∨ f.audioSourceType = .silence ∨ a.frames = 0
  · simp only [push_audio_to_buffer, if_pos h0]; exact hf
  · by_cases h1 : f.audioBufferFrames + a.frames > p.maxAudioBufferFrames
    · simp only [push_audio_to_buffer, if_neg h0, if_pos h1]
      split <;> (try simp [logE]) <;> omega
    · simp only [push_audio_to_buffer, if_neg h0, if_neg h1]
      split <;> (try simp [logE]) <;> omega

/-- Witness for bounded_buffer_after_push: a push of 3 frames against a
ceiling of 5. -/
theorem bounded_buffer_after_push_witness :
    (push_audio_to_buffer exParams exFilter (rampPush 0 3)).audioBufferFrames ≤
      exParams.maxAudioBufferFrames :=
  bounded_buffer_after_push exParams exFilter (rampPush 0 3) (by decide) (by decide)

/-- C4: a drain call finding fewer buffered frames than requested returns
immediately: the destinations are bit-for-bit unchanged, nothing is written,
the buffer and its frame count are untouched, the starvation streak counter is
incremented, and the wait message is logged exactly when this is the first
starved cycle of the streak. -/
theorem drain_starvation (outF mixers startTs : Nat) (f : Filter) (mixes : Mixes)
    (hact : f.outputActive = true) (hsrc : f.audioSourceType ≠ .silence)
    (hlt : f.audioBufferFrames < outF) :
    (audio_input_callback outF mixers true startTs f mixes).mixes = mixes ∧
    (audio_input_callback outF mixers true startTs f mixes).written = 0 ∧
    (audio_input_callback outF mixers true startTs f mixes).filter.audioBuffer =
      f.audioBuffer ∧
    (audio_input_callback outF mixers true startTs f mixes).filter.audioBufferFrames =
      f.audioBufferFrames ∧
    (audio_input_callback outF mixers true startTs f mixes).filter.audioSkip =
      f.audioSkip + 1 ∧
    (audio_input_callback outF mixers true startTs f mixes).filter.trace =
      (if f.audioSkip = 0 then
        { level := LogLevel.debug, tag := LogTag.waitForFrames } :: f.trace
      else f.trace) ∧
    (audio_input_callback outF mixers true startTs f mixes).outTs = startTs := by
  by_cases hs : f.audioSkip = 0 <;>
    simp [audio_input_callback, hact, hsrc, hlt, hs, logE]

/-- Witness for drain_starvation: empty buffer, 30 requested frames. -/
theorem drain_starvation_witness :
    (audio_input_callback 30 1 true 7 exFilter (zeroMix 30)).mixes = zeroMix 30 ∧
    (audio_input_callback 30 1 true 7 exFilter (zeroMix 30)).written = 0 ∧
    (audio_input_callback 30 1 true 7 exFilter (zeroMix 30)).filter.audioBuffer =
      exFilter.audioBuffer ∧
    (audio_input_callback 30 1 true 7 exFilter (zeroMix 30)).filter.audioBufferFrames =
      exFilter.audioBufferFrames ∧
    (audio_input_callback 30 1 true 7 exFilter (zeroMix 30)).filter.audioSkip =
      exFilter.audioSkip + 1 ∧
    (audio_input_callback 30 1 true 7 exFilter (zeroMix 30)).filter.trace =
      (if exFilter.audioSkip = 0 then
        { level := LogLevel.debug, tag := LogTag.waitForFrames } :: exFilter.trace
      else exFilter.trace) ∧
    (audio_input_callback 30 1 true 7 exFilter (zeroMix 30)).outTs = 7 :=
  drain_starvation 30 1 7 exFilter (zeroMix 30) (by decide) (by decide) (by decide)

/-- C5: pushing one 100-frame chunk and draining 30, 30 and 40 frames yields
three drains whose per-channel concatenation is exactly the original 100
samples, with no duplicate and no gap; the two partial drains leave the chunk
in the buffer with only its consumed offset advanced in place (30, then 60),
and the drain that takes the last remaining frames pops the whole chunk. -/
theorem partial_chunk_resumption :
    mixChan0 c5Drain1.mixes ++ mixChan0 c5Drain2.mixes ++ mixChan0 c5Drain3.mixes =
      ramp100 ∧
    c5Drain1.written = 30 ∧ c5Drain2.written = 30 ∧ c5Drain3.written = 40 ∧
    c5State0.audioBuffer =
      [{ frames := 100, timestamp := 0, offset := 0, data := [some ramp100] }] ∧
    c5Drain1.filter.audioBuffer =
      [{ frames := 100, timestamp := 0, offset := 30, data := [some ramp100] }] ∧
    c5Drain2.filter.audioBuffer =
      [{ frames := 100, timestamp := 0, offset := 60, data := [some ramp100] }] ∧
    c5Drain3.filter.audioBuffer = [] ∧
    c5Drain3.filter.audioBufferFrames = 0 := by
  set_option maxRecDepth 100000 in
  with_unfolding_all decide

/-- C6: drained samples are additively accumulated into the destination and
hard-clipped to [-1, 1]: accumulating two pushes of value 0.8 into the same
bus, channel and offset yields exactly 1.0 in the destination (the unclipped
sum would be 1.6), and the first accumulation onto a zero destination yields
0.8, showing accumulation rather than overwrite. -/
theorem accumulate_and_clip :
    mixChan0 c6Drain1.mixes = [(4 : ℚ) / 5] ∧
    mixChan0 c6Drain2.mixes = [(1 : ℚ)] ∧
    (4 : ℚ) / 5 + 4 / 5 = 8 / 5 ∧
    clip ((4 : ℚ) / 5 + 4 / 5) = 1 := by
  with_unfolding_all decide

/-- Audio source selection leaves the settings revisions, the enable flags
and the output-active flag untouched. -/
theorem selectAudio_preserves (env : Env) (f : Filter) :
    (selectAudio env f).1.activeSettingsRev = f.activeSettingsRev ∧
    (selectAudio env f).1.storedSettingsRev = f.storedSettingsRev ∧
    (selectAudio env f).1.filterActive = f.filterActive ∧
    (selectAudio env f).1.outputActive = f.outputActive := by
  unfold selectAudio
  repeat' split
  all_goals simp [logE]

/-- Audio source selection never changes the filter-enabled flag. -/
theorem selectAudio_filterActive (env : Env) (g : Filter) :
    (selectAudio env g).1.filterActive = g.filterActive :=
  (selectAudio_preserves env g).2.2.1

/-- Audio source selection never changes the active settings revision. -/
theorem selectAudio_activeRev (env : Env) (g : Filter) :
    (selectAudio env g).1.activeSettingsRev = g.activeSettingsRev :=
  (selectAudio_preserves env g).1

/-- The encoder stage never changes the filter-enabled flag. -/
theorem startEncoders_filterActive (env : Env) (f : Filter) :
    (startEncoders env f).filterActive = f.filterActive := by
  simp only [startEncoders]
  repeat' split
  all_goals simp [logE]

/-- The encoder stage never changes the active settings revision. -/
theorem startEncoders_activeRev (env : Env) (f : Filter) :
    (startEncoders env f).activeSettingsRev = f.activeSettingsRev := by
  simp only [startEncoders]
  repeat' split
  all_goals simp [logE]

/-- The audio output stage never changes the filter-enabled flag. -/
theorem startAudioOutput_filterActive (env : Env) (f : Filter) :
    (startAudioOutput env f).filterActive = f.filterActive := by
  simp only [startAudioOutput]
  split <;> simp [logE, startEncoders_filterActive]

/-- The audio output stage never changes the active settings revision. -/
theorem startAudioOutput_activeRev (env : Env) (f : Filter) :
    (startAudioOutput env f).activeSettingsRev = f.activeSettingsRev := by
  simp only [startAudioOutput]
  split <;> simp [logE, startEncoders_activeRev]

/-- The audio source stage never changes the filter-enabled flag. -/
theorem startAudio_filterActive (env : Env) (f : Filter) :
    (startAudio env f).filterActive = f.filterActive := by
  simp only [startAudio]
  split
  · simp [selectAudio_filterActive]
  · split <;> simp [logE, startAudioOutput_filterActive, selectAudio_filterActive]

/-- The audio source stage never changes the active settings revision. -/
theorem startAudio_activeRev (env : Env) (f : Filter) :
    (startAudio env f).activeSettingsRev = f.activeSettingsRev := by
  simp only [startAudio]
  split
  · simp [selectAudio_activeRev]
  · split <;> simp [logE, startAudioOutput_activeRev, selectAudio_activeRev]

/-- The view stage never changes the filter-enabled flag. -/
theorem startView_filterActive (env : Env) (f : Filter) :
    (startView env f).filterActive = f.filterActive := by
  simp only [startView]
  split <;> simp [logE, startAudio_filterActive]

/-- The view stage never changes the active settings revision. -/
theorem startView_activeRev (env : Env) (f : Filter) :
    (startView env f).activeSettingsRev = f.activeSettingsRev := by
  simp only [startView]
  split <;> simp [logE, startAudio_activeRev]

/-- The stream output stage never changes the filter-enabled flag. -/
theorem startStreamOutput_filterActive (env : Env) (f : Filter) :
    (startStreamOutput env f).filterActive = f.filterActive := by
  simp only [startStreamOutput]
  split <;> simp [logE, startView_filterActive]

/-- The stream output stage never changes the active settings revision. -/
theorem startStreamOutput_activeRev (env : Env) (f : Filter) :
    (startStreamOutput env f).activeSettingsRev = f.activeSettingsRev := by
  simp only [startStreamOutput]
  split <;> simp [logE, startView_activeRev]

/-- The service stage never changes the filter-enabled flag. -/
theorem startService_filterActive (env : Env) (f : Filter) :
    (startService env f).filterActive = f.filterActive := by
  simp only [startService]
  split <;> simp [logE, startStreamOutput_filterActive]

/-- The service stage never changes the active settings revision. -/
theorem startService_activeRev (env : Env) (f : Filter) :
    (startService env f).activeSettingsRev = f.activeSettingsRev := by
  simp only [startService]
  split <;> simp [logE, startStreamOutput_activeRev]

/-- The start sequence never changes the filter-enabled flag. -/
theorem start_output_filterActive (env : Env) (f : Filter) :
    (start_output env f).filterActive = f.filterActive := by
  simp only [start_output]
  repeat' split
  all_goals simp [logE, stop_output, startService_filterActive]

/-- When every validation check of the start sequence passes, the active
settings revision is updated to the stored settings revision, whether or not
any later acquisition fails. -/
theorem start_output_activeRev (env : Env) (f : Filter)
    (hobs : env.obsInitialized = true) (hen : env.sourceEnabled = true)
    (hpar : env.parentExists = true) (hvi : env.videoInfoOk = true)
    (hw : env.parentWidth + env.parentWidth % 2 ≠ 0)
    (hh : env.parentHeight + env.parentHeight % 2 ≠ 0)
    (hfd : env.fpsDen ≠ 0) (hfn : env.fpsNum ≠ 0) :
    (start_output env f).activeSettingsRev = f.storedSettingsRev := by
  simp [start_output, hobs, hen, hpar, hvi, hw, hh, hfd, hfn,
    startService_activeRev, stop_output]

/-- When an encoder creation fails, the encoder stage leaves the output
inactive and its newest log line is an error. -/
theorem startEncoders_fail (env : Env) (f : Filter) (hf : f.outputActive = false)
    (hfail : env.videoEncoderCreateOk = false ∨ env.audioEncoderCreateOk = false) :
    (startEncoders env f).outputActive = false ∧
    ∃ t, (startEncoders env f).trace.head? =
      some { level := LogLevel.error, tag := t } := by
  cases hv : env.videoEncoderCreateOk with
  | false =>
    exact ⟨by simp [startEncoders, hv, logE, hf],
      ⟨.videoEncoderCreationFailed, by simp [startEncoders, hv, logE]⟩⟩
  | true =>
    cases ha : env.audioEncoderCreateOk with
    | false =>
      exact ⟨by simp [startEncoders, hv, ha, logE, hf],
        ⟨.audioEncoderCreationFailed, by simp [startEncoders, hv, ha, logE]⟩⟩
    | true => simp [hv, ha] at hfail

/-- When the audio output open or an encoder creation fails, the audio
output stage leaves the output inactive and its newest log line is an
error. -/
theorem startAudioOutput_fail (env : Env) (f : Filter) (hf : f.outputActive = false)
    (hfail : env.audioOutputOpenOk = false ∨ env.videoEncoderCreateOk = false ∨
      env.audioEncoderCreateOk = false) :
    (startAudioOutput env f).outputActive = false ∧
    ∃ t, (startAudioOutput env f).trace.head? =
      some { level := LogLevel.error, tag := t } := by
  cases ho : env.audioOutputOpenOk with
  | false =>
    exact ⟨by simp [startAudioOutput, ho, logE, hf],
      ⟨.audioOutputOpenFailed, by simp [startAudioOutput, ho, logE]⟩⟩
  | true =>
    have hrest : env.videoEncoderCreateOk = false ∨ env.audioEncoderCreateOk = false := by
      rcases hfail with h | h
      · rw [ho] at h; cases h
      · exact h
    have := startEncoders_fail env { f with audioOutput := true } (by simp [hf]) hrest
    simpa [startAudioOutput, ho] using this

/-- When the filter-audio source is selected and the audio output open or an
encoder creation fails, the audio source stage leaves the output inactive
and its newest log line is an error. -/
theorem startAudio_fail (env : Env) (f : Filter) (hf : f.outputActive = false)
    (hcust : env.customAudioSource = false)
    (hfail : env.audioOutputOpenOk = false ∨ env.videoEncoderCreateOk = false ∨
      env.audioEncoderCreateOk = false) :
    (startAudio env f).outputActive = false ∧
    ∃ t, (startAudio env f).trace.head? =
      some { level := LogLevel.error, tag := t } := by
  have key := startAudioOutput_fail env
    (logE .info .useFilterAudio
      { f with
        audioSourceType := .filter
        audioSource := false
        audioMixIdx := 0
        audioChannels := env.audioChannelsEnv
        samplesPerSec := env.sampleRate
        audioBufferFrames := 0
        audioSkip := 0 })
    (by simp [logE, hf]) hfail
  simpa [startAudio, selectAudio, hcust, logE] using key

/-- When the view association, the audio output open or an encoder creation
fails, the view stage leaves the output inactive and its newest log line is
an error. -/
theorem startView_fail (env : Env) (f : Filter) (hf : f.outputActive = false)
    (hcust : env.customAudioSource = false)
    (hfail : env.viewAddOk = false ∨ env.audioOutputOpenOk = false ∨
      env.videoEncoderCreateOk = false ∨ env.audioEncoderCreateOk = false) :
    (startView env f).outputActive = false ∧
    ∃ t, (startView env f).trace.head? =
      some { level := LogLevel.error, tag := t } := by
  cases hv : env.viewAddOk with
  | false =>
    exact ⟨by simp [startView, hv, logE, hf],
      ⟨.videoOutputAssocFailed, by simp [startView, hv, logE]⟩⟩
  | true =>
    have hrest : env.audioOutputOpenOk = false ∨ env.videoEncoderCreateOk = false ∨
        env.audioEncoderCreateOk = false := by
      rcases hfail with h | h
      · rw [hv] at h; cases h
      · exact h
    have := startAudio_fail env { { f with view := true } with videoOutput := true }
      (by simp [hf]) hcust hrest
    simpa [startView, hv] using this

/-- When the stream output creation or any later acquisition fails, the
stream output stage leaves the output inactive and its newest log line is an
error. -/
theorem startStreamOutput_fail (env : Env) (f : Filter) (hf : f.outputActive = false)
    (hcust : env.customAudioSource = false)
    (hfail : env.outputCreateOk = false ∨ env.viewAddOk = false ∨
      env.audioOutputOpenOk = false ∨ env.videoEncoderCreateOk = false ∨
      env.audioEncoderCreateOk = false) :
    (startStreamOutput env f).outputActive = false ∧
    ∃ t, (startStreamOutput env f).trace.head? =
      some { level := LogLevel.error, tag := t } := by
  cases ho : env.outputCreateOk with
  | false =>
    exact ⟨by simp [startStreamOutput, ho, logE, hf],
      ⟨.outputCreationFailed, by simp [startStreamOutput, ho, logE]⟩⟩
  | true =>
    have hrest : env.viewAddOk = false ∨ env.audioOutputOpenOk = false ∨
        env.videoEncoderCreateOk = false ∨ env.audioEncoderCreateOk = false := by
      rcases hfail with h | h
      · rw [ho] at h; cases h
      · exact h
    have := startView_fail env
      { f with streamOutput := true, connectAttemptingAt := env.now }
      (by simp [hf]) hcust hrest
    simpa [startStreamOutput, ho] using this

/-- When the service creation or any later acquisition fails, the service
stage leaves the output inactive and its newest log line is an error. -/
theorem startService_fail (env : Env) (f : Filter) (hf : f.outputActive = false)
    (hcust : env.customAudioSource = false)
    (hfail : env.serviceCreateOk = false ∨ env.outputCreateOk = false ∨
      env.viewAddOk = false ∨ env.audioOutputOpenOk = false ∨
      env.videoEncoderCreateOk = false ∨ env.audioEncoderCreateOk = false) :
    (startService env f).outputActive = false ∧
    ∃ t, (startService env f).trace.head? =
      some { level := LogLevel.error, tag := t } := by
  cases hs : env.serviceCreateOk with
  | false =>
    exact ⟨by simp [startService, hs, logE, hf],
      ⟨.serviceCreationFailed, by simp [startService, hs, logE]⟩⟩
  | true =>
    have hrest : env.outputCreateOk = false ∨ env.viewAddOk = false ∨
        env.audioOutputOpenOk = false ∨ env.videoEncoderCreateOk = false ∨
        env.audioEncoderCreateOk = false := by
      rcases hfail with h | h
      · rw [hs] at h; cases h
      · exact h
    have := startStreamOutput_fail env { f with service := true } (by simp [hf]) hcust hrest
    simpa [startService, hs] using this

/-- A tick that finds the filter enabled, the output inactive and the source
enabled takes the restart branch. -/
theorem video_tick_retry (env : Env) (g : Filter) (hfa : g.filterActive = true)
    (hia : g.outputActive = false) (hen : env.sourceEnabled = true) :
    video_tick env g = restart_output env g := by
  simp [video_tick, hfa, hia, hen]

/-- C2 refutation: after a start attempt aborted by a resource-acquisition
failure (stream output creation fails), the filter state has observably
changed even though the output stayed inactive: active_settings_rev was
already updated from 3 to 5 and the service handle acquired before the
failure is still held. -/
theorem resource_failure_counterexample :
    c2FailEnv.outputCreateOk = false ∧
    (start_output c2FailEnv exFilter).outputActive = false ∧
    (start_output c2FailEnv exFilter).activeSettingsRev = 5 ∧
    exFilter.activeSettingsRev = 3 ∧
    (start_output c2FailEnv exFilter).service = true := by
  decide

/-- C2 amended: when any resource acquisition of a validated start attempt
fails (service, stream output, view/video-output association, audio output
or either encoder), the attempt is aborted with the output left inactive,
the newest log line is an error, and the next tick that finds the filter
enabled and the source enabled retries via the restart branch; the filter
state is however not left unchanged (see the counterexample). -/
theorem resource_failure_abort (env : Env) (f : Filter)
    (hobs : env.obsInitialized = true) (hen : env.sourceEnabled = true)
    (hpar : env.parentExists = true) (hvi : env.videoInfoOk = true)
    (hw : env.parentWidth + env.parentWidth % 2 ≠ 0)
    (hh : env.parentHeight + env.parentHeight % 2 ≠ 0)
    (hfd : env.fpsDen ≠ 0) (hfn : env.fpsNum ≠ 0)
    (hcust : env.customAudioSource = false)
    (hfail : env.serviceCreateOk = false ∨ env.outputCreateOk = false ∨
      env.viewAddOk = false ∨ env.audioOutputOpenOk = false ∨
      env.videoEncoderCreateOk = false ∨ env.audioEncoderCreateOk = false) :
    (start_output env f).outputActive = false ∧
    (∃ t, (start_output env f).trace.head? =
      some { level := LogLevel.error, tag := t }) ∧
    (f.filterActive = true → ∀ env2 : Env, env2.sourceEnabled = true →
      video_tick env2 (start_output env f) = restart_output env2 (start_output env f)) := by
  have heq : start_output env f = startService env
      { stop_output f with
        width := env.parentWidth + env.parentWidth % 2
        height := env.parentHeight + env.parentHeight % 2
        activeSettingsRev := f.storedSettingsRev } := by
    simp [start_output, hobs, hen, hpar, hvi, hw, hh, hfd, hfn, stop_output]
  have key := startService_fail env
    { stop_output f with
      width := env.parentWidth + env.parentWidth % 2
      height := env.parentHeight + env.parentHeight % 2
      activeSettingsRev := f.storedSettingsRev }
    (by simp [stop_output]) hcust hfail
  rw [heq]
  refine ⟨key.1, key.2, fun hfa env2 hen2 => video_tick_retry env2 _ ?_ key.1 hen2⟩
  rw [← heq, start_output_filterActive]
  exact hfa

/-- Witness for resource_failure_abort at the concrete failing environment. -/
theorem resource_failure_abort_witness :
    (start_output c2FailEnv exFilter).outputActive = false ∧
    (∃ t, (start_output c2FailEnv exFilter).trace.head? =
      some { level := LogLevel.error, tag := t }) ∧
    video_tick exEnv (start_output c2FailEnv exFilter) =
      restart_output exEnv (start_output c2FailEnv exFilter) := by
  have h := resource_failure_abort c2FailEnv exFilter rfl rfl rfl rfl
    (by decide) (by decide) (by decide) (by decide) rfl (Or.inr (Or.inl rfl))
  exact ⟨h.1, h.2.1, h.2.2 rfl exEnv rfl⟩

/-- C7: with the output active, the stream active, the connect-attempt
timeout elapsed and active_settings_rev strictly below stored_settings_rev,
the next tick takes the settings-changed restart branch (restarting from
scratch with the latest stored settings), and provided the restart passes
the validation checks it sets active_settings_rev equal to
stored_settings_rev. -/
theorem revision_gap_restart (env : Env) (f : Filter)
    (hfa : f.filterActive = true) (hoa : f.outputActive = true)
    (hen : env.sourceEnabled = true) (hsa : env.streamActive = true)
    (hto : connect_attempting_timed_out env f = true)
    (hrev : f.activeSettingsRev < f.storedSettingsRev)
    (hsrv : env.serverSet = true)
    (hobs : env.obsInitialized = true) (hpar : env.parentExists = true)
    (hvi : env.videoInfoOk = true)
    (hw : env.parentWidth + env.parentWidth % 2 ≠ 0)
    (hh : env.parentHeight + env.parentHeight % 2 ≠ 0)
    (hfd : env.fpsDen ≠ 0) (hfn : env.fpsNum ≠ 0) :
    video_tick env f = restart_output env (logE .info .settingsChangeDetected f) ∧
    (video_tick env f).activeSettingsRev = f.storedSettingsRev := by
  have h1 : video_tick env f = restart_output env (logE .info .settingsChangeDetected f) := by
    simp [video_tick, hfa, hoa, hen, hsa, hto, hrev]
  have h2 : restart_output env (logE .info .settingsChangeDetected f) =
      start_output env (stop_output (logE .info .settingsChangeDetected f)) := by
    simp [restart_output, logE, hoa, hsrv]
  refine ⟨h1, ?_⟩
  rw [h1, h2, start_output_activeRev env _ hobs hen hpar hvi hw hh hfd hfn]
  simp [stop_output, logE]

/-- Witness for revision_gap_restart: revisions 3 and 5, expired timeout. -/
theorem revision_gap_restart_witness :
    video_tick exEnv exFilter =
      restart_output exEnv (logE .info .settingsChangeDetected exFilter) ∧
    (video_tick exEnv exFilter).activeSettingsRev = exFilter.storedSettingsRev :=
  revision_gap_restart exEnv exFilter rfl rfl rfl rfl (by decide) (by decide)
    rfl rfl rfl rfl (by decide) (by decide) (by decide) (by decide)

/-- Unconsumed frames of a chunk list distribute over cons. -/
theorem sumAvail_cons (c : Chunk) (l : List Chunk) :
    sumAvail (c :: l) = c.avail + sumAvail l := by
  simp [sumAvail]

/-- Unconsumed frames of a chunk list distribute over a snoc. -/
theorem sumAvail_snoc (l : List Chunk) (c : Chunk) :
    sumAvail (l ++ [c]) = sumAvail l + c.avail := by
  simp [sumAvail]

/-- Appending a live chunk keeps every chunk live. -/
theorem liveChunks_snoc (l : List Chunk) (c : Chunk)
    (hl : liveChunks l) (hc : c.offset < c.frames) : liveChunks (l ++ [c]) := by
  intro x hx
  rcases List.mem_append.mp hx with h | h
  · exact hl x h
  · rcases List.mem_singleton.mp h with rfl
    exact hc

/-- The drain loop takes exactly the requested frames capped by the frames
available, it decrements the buffered-frame count by that amount, and it
preserves the store invariant (all chunks live, counter equal to the total
unconsumed frames). -/
theorem drainLoop_spec (mixers ac outF : Nat) :
    ∀ (buf : List Chunk) (bufFrames maxF : Nat) (mixes : Mixes),
      liveChunks buf → bufFrames = sumAvail buf →
      (drainLoop mixers ac outF buf bufFrames maxF mixes).taken = min maxF bufFrames ∧
      (drainLoop mixers ac outF buf bufFrames maxF mixes).bufferedFrames =
        bufFrames - min maxF bufFrames ∧
      liveChunks (drainLoop mixers ac outF buf bufFrames maxF mixes).buffer ∧
      (drainLoop mixers ac outF buf bufFrames maxF mixes).bufferedFrames =
        sumAvail (drainLoop mixers ac outF buf bufFrames maxF mixes).buffer := by
  intro buf
  induction buf with
  | nil =>
    intro bufFrames maxF mixes _ he
    have h0 : bufFrames = 0 := by simpa [sumAvail] using he
    subst h0
    refine ⟨by simp [drainLoop], by simp [drainLoop], ?_, by simp [drainLoop, sumAvail]⟩
    intro x hx
    simp [drainLoop] at hx
  | cons c rest ih =>
    intro bufFrames maxF mixes hl he
    have hc : c.offset < c.frames := hl c (List.mem_cons_self c rest)
    have hrest : liveChunks rest := fun x hx => hl x (List.mem_cons_of_mem c hx)
    have hbf : bufFrames = (c.frames - c.offset) + sumAvail rest := by
      rw [he, sumAvail_cons]; rfl
    by_cases h0 : maxF = 0 ∨ bufFrames = 0
    · simp only [drainLoop, if_pos h0]
      refine ⟨?_, ?_, hl, he⟩ <;> rcases h0 with h | h <;> simp [h]
    · simp only [drainLoop, if_neg h0]
      by_cases ht : min (c.frames - c.offset) maxF = c.frames - c.offset
      · simp only [if_pos ht]
        obtain ⟨ih1, ih2, ih3, ih4⟩ := ih (bufFrames - min (c.frames - c.offset) maxF)
          (maxF - min (c.frames - c.offset) maxF)
          (accumChunk mixers ac c (min (c.frames - c.offset) maxF) (outF - maxF) mixes)
          hrest
          (by omega)
        refine ⟨?_, ?_, ih3, ih4⟩
        · show min (c.frames - c.offset) maxF +
            (drainLoop mixers ac outF rest (bufFrames - min (c.frames - c.offset) maxF)
              (maxF - min (c.frames - c.offset) maxF)
              (accumChunk mixers ac c (min (c.frames - c.offset) maxF) (outF - maxF) mixes)).taken =
            min maxF bufFrames
          rw [ih1]
          omega
        · show (drainLoop mixers ac outF rest (bufFrames - min (c.frames - c.offset) maxF)
              (maxF - min (c.frames - c.offset) maxF)
              (accumChunk mixers ac c (min (c.frames - c.offset) maxF) (outF - maxF) mixes)).bufferedFrames =
            bufFrames - min maxF bufFrames
          rw [ih2]
          omega
      · simp only [if_neg ht]
        have hlt : maxF < c.frames - c.offset := by omega
        refine ⟨?_, ?_, ?_, ?_⟩
        · show min (c.frames - c.offset) maxF = min maxF bufFrames
          omega
        · show bufFrames - min (c.frames - c.offset) maxF = bufFrames - min maxF bufFrames
          omega
        · intro x hx
          rcases List.mem_cons.mp hx with h | h
          · subst h
            show c.offset + min (c.frames - c.offset) maxF < c.frames
            omega
          · exact hrest x h
        · rw [sumAvail_cons]
          show bufFrames - min (c.frames - c.offset) maxF =
            (c.frames - (c.offset + min (c.frames - c.offset) maxF)) + sumAvail rest
          omega

/-- Logging changes only the trace, and the overflow-warning count grows by
one exactly for a buffer-full event. -/
theorem overflowCount_logE (lv : LogLevel) (tg : LogTag) (f : Filter) :
    overflowCount (logE lv tg f) =
      overflowCount f + (if tg = LogTag.bufferFull then 1 else 0) := by
  simp only [overflowCount, logE, List.filter_cons]
  split <;> simp_all

/-- One drain callback preserves the store invariant, conserves frames (the
frames accumulated plus the frames left equal the frames held before), keeps
the gating fields, and never emits a buffer-full warning. -/
theorem drain_step (outF mixers ts : Nat) (f : Filter) (mixes : Mixes)
    (hinv : BufInv f) :
    BufInv (audio_input_callback outF mixers true ts f mixes).filter ∧
    (audio_input_callback outF mixers true ts f mixes).written +
      (audio_input_callback outF mixers true ts f mixes).filter.audioBufferFrames =
      f.audioBufferFrames ∧
    (audio_input_callback outF mixers true ts f mixes).filter.outputActive =
      f.outputActive ∧
    (audio_input_callback outF mixers true ts f mixes).filter.audioSourceType =
      f.audioSourceType ∧
    overflowCount (audio_input_callback outF mixers true ts f mixes).filter =
      overflowCount f := by
  by_cases h0 : f.outputActive = false ∨ f.audioSourceType = .silence
  · simp [audio_input_callback, h0, hinv]
  · have hcond : ¬(f.outputActive = false ∨ f.audioSourceType = .silence ∨
        (true : Bool) = false) := by simpa using h0
    by_cases h1 : f.audioBufferFrames < outF
    · by_cases hs : f.audioSkip = 0 <;>
        · simp only [audio_input_callback, if_neg hcond, if_pos h1]
          simp [hs, logE, BufInv]
          refine ⟨⟨hinv.1, hinv.2⟩, ?_⟩
          simp [overflowCount, List.filter_cons]
    · obtain ⟨d1, d2, d3, d4⟩ := drainLoop_spec mixers f.audioChannels outF
        f.audioBuffer f.audioBufferFrames outF mixes hinv.1 hinv.2
      simp only [audio_input_callback, if_neg hcond, if_neg h1]
      refine ⟨⟨d3, d4⟩, ?_, trivial, trivial, rfl⟩
      show (drainLoop mixers f.audioChannels outF f.audioBuffer
          f.audioBufferFrames outF mixes).taken +
        (drainLoop mixers f.audioChannels outF f.audioBuffer
          f.audioBufferFrames outF mixes).bufferedFrames = f.audioBufferFrames
      rw [d1, d2]
      omega

/-- One push preserves the store invariant and adds exactly the pushed frame
count whenever no overflow warning was emitted, and keeps the gating
fields. -/
theorem push_step (p : Params) (f : Filter) (a : AudioDataIn)
    (hact : f.outputActive = true) (hsrc : f.audioSourceType ≠ .silence)
    (hinv : BufInv f)
    (hno : overflowCount (push_audio_to_buffer p f a) = overflowCount f) :
    BufInv (push_audio_to_buffer p f a) ∧
    (push_audio_to_buffer p f a).audioBufferFrames =
      f.audioBufferFrames + a.frames ∧
    (push_audio_to_buffer p f a).outputActive = f.outputActive ∧
    (push_audio_to_buffer p f a).audioSourceType = f.audioSourceType := by
  by_cases hfr : a.frames = 0
  · simp [push_audio_to_buffer, hfr, hinv]
  · have hcond : ¬(f.outputActive = false ∨ f.audioSourceType = .silence ∨ a.frames = 0) := by
      simp [hact, hsrc, hfr]
    by_cases hov : f.audioBufferFrames + a.frames > p.maxAudioBufferFrames
    · exfalso
      have : overflowCount (push_audio_to_buffer p f a) = overflowCount f + 1 := by
        simp only [push_audio_to_buffer, if_neg hcond, if_pos hov]
        split <;> simp [overflowCount, logE, List.filter_cons]
      omega
    · have hchunk : (mkChunk f.audioChannels a).offset < (mkChunk f.audioChannels a).frames := by
        simp [mkChunk]
        omega
      simp only [push_audio_to_buffer, if_neg hcond, if_neg hov]
      split
      · refine ⟨⟨liveChunks_snoc _ _ hinv.1 hchunk, ?_⟩, ?_, ?_, ?_⟩ <;>
          simp [logE, sumAvail_snoc, hinv.2, mkChunk, Chunk.avail]
      · refine ⟨⟨liveChunks_snoc _ _ hinv.1 hchunk, ?_⟩, ?_, ?_, ?_⟩ <;>
          simp [logE, sumAvail_snoc, hinv.2, mkChunk, Chunk.avail]

/-- A push can only grow the overflow-warning count. -/
theorem push_overflowCount_ge (p : Params) (f : Filter) (a : AudioDataIn) :
    overflowCount f ≤ overflowCount (push_audio_to_buffer p f a) := by
  by_cases h0 : f.outputActive = false ∨ f.audioSourceType = .silence ∨ a.frames = 0
  · simp [push_audio_to_buffer, h0]
  · simp only [push_audio_to_buffer, if_neg h0]
    split <;> split <;> simp [overflowCount, logE, List.filter_cons]

/-- A drain callback never emits an overflow warning. -/
theorem drain_overflowCount_eq (outF mixers ts : Nat) (f : Filter) (mixes : Mixes) :
    overflowCount (audio_input_callback outF mixers true ts f mixes).filter =
      overflowCount f := by
  by_cases h0 : f.outputActive = false ∨ f.audioSourceType = .silence
  · simp [audio_input_callback, h0]
  · have hcond : ¬(f.outputActive = false ∨ f.audioSourceType = .silence ∨
        (true : Bool) = false) := by simpa using h0
    by_cases h1 : f.audioBufferFrames < outF
    · by_cases hs : f.audioSkip = 0 <;>
        · simp only [audio_input_callback, if_neg hcond, if_pos h1]
          simp [hs, logE, overflowCount, List.filter_cons]
    · simp only [audio_input_callback, if_neg hcond, if_neg h1]
      rfl

/-- Running more operations can only grow the overflow-warning count. -/
theorem runOps_overflowCount_ge (p : Params) (outF : Nat) :
    ∀ (ops : List AudioOp) (f : Filter) (d : Nat),
      overflowCount f ≤ overflowCount (runOps p outF f d ops).1 := by
  intro ops
  induction ops with
  | nil => intro f d; simp [runOps]
  | cons op rest ih =>
    intro f d
    cases op with
    | push a => exact le_trans (push_overflowCount_ge p f a) (ih _ _)
    | drain m ts =>
      have h := drain_overflowCount_eq outF m ts f []
      calc overflowCount f
          = overflowCount (audio_input_callback outF m true ts f []).filter := h.symm
        _ ≤ _ := ih _ _

/-- Frame conservation along a run: whenever the run emits no overflow
warning, the frames accumulated into destinations plus the frames left in
the buffer equal the frames carried in plus all frames pushed. -/
theorem runOps_conservation (p : Params) (outF : Nat) :
    ∀ (ops : List AudioOp) (f : Filter) (d : Nat),
      f.outputActive = true → f.audioSourceType ≠ .silence → BufInv f →
      overflowCount (runOps p outF f d ops).1 = overflowCount f →
      (runOps p outF f d ops).2 + (runOps p outF f d ops).1.audioBufferFrames =
        d + f.audioBufferFrames + pushedFrames ops := by
  intro ops
  induction ops with
  | nil =>
    intro f d _ _ _ _
    simp [runOps, pushedFrames]
  | cons op rest ih =>
    intro f d hact hsrc hinv hover
    cases op with
    | push a =>
      have hstep : runOps p outF f d (.push a :: rest) =
          runOps p outF (push_audio_to_buffer p f a) d rest := rfl
      rw [hstep] at hover ⊢
      have hmono1 := push_overflowCount_ge p f a
      have hmono2 := runOps_overflowCount_ge p outF rest (push_audio_to_buffer p f a) d
      have hno : overflowCount (push_audio_to_buffer p f a) = overflowCount f := by
        omega
      obtain ⟨hinv2, hcnt2, hact2, hsrc2⟩ := push_step p f a hact hsrc hinv hno
      have hrec := ih (push_audio_to_buffer p f a) d
        (by rw [hact2]; exact hact) (by rw [hsrc2]; exact hsrc) hinv2
        (by rw [hover, hno])
      rw [hrec, hcnt2, pushedFrames]
      omega
    | drain m ts =>
      have hstep : runOps p outF f d (.drain m ts :: rest) =
          runOps p outF (audio_input_callback outF m true ts f []).filter
            (d + (audio_input_callback outF m true ts f []).written) rest := rfl
      rw [hstep] at hover ⊢
      obtain ⟨hinv2, hw2, hact2, hsrc2, hoc2⟩ := drain_step outF m ts f [] hinv
      have hrec := ih (audio_input_callback outF m true ts f []).filter
        (d + (audio_input_callback outF m true ts f []).written)
        (by rw [hact2]; exact hact) (by rw [hsrc2]; exact hsrc) hinv2
        (by rw [hover, hoc2])
      rw [hrec, pushedFrames]
      omega

/-- C3: frame conservation. Starting from an empty buffer with the output
active and a non-silence source, for any sequence of pushes and drains that
triggers no overflow reset, the total frames accumulated into destination
buses plus the frames remaining in the buffer equal the total frames
pushed. -/
theorem frame_conservation (p : Params) (outF : Nat) (f0 : Filter)
    (ops : List AudioOp)
    (hbuf : f0.audioBuffer = []) (hcnt : f0.audioBufferFrames = 0)
    (hact : f0.outputActive = true) (hsrc : f0.audioSourceType ≠ .silence)
    (hover : overflowCount (runOps p outF f0 0 ops).1 = overflowCount f0) :
    (runOps p outF f0 0 ops).2 + (runOps p outF f0 0 ops).1.audioBufferFrames =
      pushedFrames ops := by
  have hinv : BufInv f0 := by
    constructor
    · rw [hbuf]; intro x hx; simp at hx
    · rw [hbuf, hcnt]; rfl
  have h := runOps_conservation p outF ops f0 0 hact hsrc hinv hover
  rw [h, hcnt]
  omega

/-- Witness for frame_conservation: push 3 frames, drain 2, starve once. -/
theorem frame_conservation_witness :
    (runOps bigParams 2 exFilter 0 c3Ops).2 +
      (runOps bigParams 2 exFilter 0 c3Ops).1.audioBufferFrames =
      pushedFrames c3Ops :=
  frame_conservation bigParams 2 exFilter c3Ops rfl rfl rfl (by decide)
    (by with_unfolding_all decide)

end BranchOutput
